import Mathlib

/-!
Verification development for the `airtable-gateway-py` caching and
admission-control layer (`src/cache.py`, `src/rate_limiter.py`).

The backing store (Redis) is an external collaborator; it is modelled as:
  * a total map `String → RLWindow` for the rate limiter's sorted sets
    (an absent key behaves exactly like an empty sorted set, as in Redis), and
  * an association list `List (String × CEntry)` for the cache keyspace
    (finite, so that `KEYS pattern` enumeration can be modelled).
Timestamps (`time.time()`) are modelled as rationals `ℚ`; Python `int()`
truncation toward zero is `pyInt`.  A Redis member `str(now)` is identified
with its score `now` (distinct floats have distinct `str` images, so a
sorted-set member set is a duplicate-free set of timestamps).
-/

/-- Connection state of the backing-store client as seen by one operation:
`ok` (reachable, operations succeed), `unavailable` (the client attribute is
`None`, Python falsy), or `failing` (the client object exists but every
backing-store call raises, caught by the surrounding `try`/`except`). -/
inductive Client where
  | ok : Client
  | unavailable : Client
  | failing : Client
deriving DecidableEq, Repr

attribute [local semireducible] Rat.add Rat.sub Rat.mul Rat.inv

/-- Python `int()` applied to a rational: truncation toward zero
(`Int.tdiv` is T-division, which truncates toward zero). -/
def pyInt (q : ℚ) : Int :=
  q.num.tdiv q.den

/-- One rate-limit window key in the backing store: the recorded request
timestamps (the sorted-set members, identified by score) and the key's
absolute expiry as set by `EXPIRE` (`none` = no expiry set yet). -/
structure RLWindow where
  tss : List ℚ
  expireAt : Option ℚ
deriving DecidableEq, Repr

/-- The empty window: what Redis reports for an absent sorted-set key. -/
def emptyWindow : RLWindow := { tss := [], expireAt := none }

/-- The rate limiter's view of the backing store keyspace. -/
def RLStore : Type := String → RLWindow

/-- Point update of the rate-limit keyspace. -/
def rlSet (store : RLStore) (k : String) (w : RLWindow) : RLStore :=
  fun k2 => if k2 = k then w else store k2

/-- `AirtableRateLimiter._make_key`: `f"{self.prefix}:{identifier}"` with
`self.prefix = "airtable_rate_limit"`. -/
def rlKey (identifier : String) : String :=
  "airtable_rate_limit" ++ ":" ++ identifier

/-- The dictionary returned by `_sliding_window_check`. -/
structure RLResult where
  allowed : Bool
  remaining : Int
  reset_time : ℚ
  retry_after : Int
  limit : Nat
  window_seconds : Nat
deriving DecidableEq, Repr

/-- The fail-open result built when Redis is absent or any step raises:
allowed, `remaining = limit - 1`, `reset_time = now + window`, no retry delay. -/
def failOpenResult (limit window_seconds : Nat) (now : ℚ) : RLResult :=
  { allowed := true
    remaining := (limit : Int) - 1
    reset_time := now + window_seconds
    retry_after := 0
    limit := limit
    window_seconds := window_seconds }

/-- `AirtableRateLimiter._sliding_window_check`, translated step for step:
ZREMRANGEBYSCORE key 0 (now - window); ZCARD; ZADD {str(now): now};
EXPIRE key window; then on `current >= limit` a compensating
ZREM key str(now), a ZRANGE key 0 0 WITHSCORES for the oldest survivor, and
`retry_after = int(reset_time - now)`; otherwise allowed with
`remaining = limit - current - 1`.  Returns the result dict and the
keyspace after the call. -/
def slidingWindowCheck (client : Client) (store : RLStore) (identifier : String)
    (limit : Nat) (window_seconds : Nat) (now : ℚ) : RLResult × RLStore :=
  match client with
  | .unavailable => (failOpenResult limit window_seconds now, store)
  | .failing => (failOpenResult limit window_seconds now, store)
  | .ok =>
    let key := rlKey identifier
    let window_start : ℚ := now - window_seconds
    let w := store key
    let survivors := w.tss.filter (fun t => decide (¬ (0 ≤ t ∧ t ≤ window_start)))
    let current := survivors.length
    let afterAdd := if now ∈ survivors then survivors else survivors ++ [now]
    let store1 := rlSet store key { tss := afterAdd, expireAt := some (now + window_seconds) }
    if limit ≤ current then
      let afterRem := afterAdd.filter (fun t => decide (¬ t = now))
      let store2 := rlSet store1 key { tss := afterRem, expireAt := some (now + window_seconds) }
      let reset_time : ℚ :=
        match afterRem.min? with
        | some o => o + window_seconds
        | none => now + window_seconds
      ({ allowed := false
         remaining := 0
         reset_time := reset_time
         retry_after := pyInt (reset_time - now)
         limit := limit
         window_seconds := window_seconds }, store2)
    else
      ({ allowed := true
         remaining := (limit : Int) - current - 1
         reset_time := now + window_seconds
         retry_after := 0
         limit := limit
         window_seconds := window_seconds }, store1)

/-- `AirtableRateLimiter.check_base_limit`: identifier `f"base:{base_id}"`,
limit 5, window 1 second. -/
def check_base_limit (client : Client) (store : RLStore) (base_id : String)
    (now : ℚ) : RLResult × RLStore :=
  slidingWindowCheck client store ("base:" ++ base_id) 5 1 now

/-- JSON-compatible values: what `json.dumps`/`json.loads` round-trip.
Object keys are strings (JSON objects only have string keys). -/
inductive Json where
  | null : Json
  | bool (b : Bool) : Json
  | num (n : Int) : Json
  | str (s : String) : Json
  | arr (elems : List Json) : Json
  | obj (fields : List (String × Json)) : Json

/-- One cache entry: the stored (serialized) value and the absolute expiry
set by `SETEX` (`json.dumps` never produces the empty string, so the `if
cached:` truthiness test in `CacheManager.get` is equivalent to presence). -/
structure CEntry where
  value : Json
  expireAt : ℚ

/-- The cache's view of the backing-store keyspace, as a finite association
list so that `KEYS pattern` enumeration can be modelled. -/
def CStore : Type := List (String × CEntry)

/-- Keyspace lookup. -/
def cLookup (store : CStore) (k : String) : Option CEntry :=
  List.lookup k store

/-- `SETEX`: overwrite-or-create the entry at `k`. -/
def cSet (store : CStore) (k : String) (e : CEntry) : CStore :=
  store.filter (fun p => !(p.1 == k)) ++ [(k, e)]

/-- Python `":".join(...)`. -/
def joinColon : List String → String
  | [] => ""
  | [a] => a
  | a :: rest => a ++ ":" ++ joinColon rest

/-- Character-level image of `joinColon`, for reasoning about key
injectivity. -/
def charsJoin : List (List Char) → List Char
  | [] => []
  | [a] => a
  | a :: rest => a ++ ':' :: charsJoin rest

/-- `CacheManager._make_key`:
`f"airtable:{key_type}:{':'.join(str(arg) for arg in args)}"`; the arguments
are taken already in their `str` images. -/
def make_key (key_type : String) (args : List String) : String :=
  "airtable" ++ ":" ++ key_type ++ ":" ++ joinColon args

/-- `CacheManager.ttl_config` (`.get` with a 5-minute default), in seconds:
bases 4h, schema 1h, records 5min, record 2min. -/
def ttl_config (key_type : String) : ℚ :=
  if key_type = "bases" then 14400
  else if key_type = "schema" then 3600
  else if key_type = "records" then 300
  else if key_type = "record" then 120
  else 300

/-- `CacheManager.get`: `None` when the client is absent, on a miss, after
expiry, or when the read raises; the parsed value otherwise. -/
def cache_get (client : Client) (store : CStore) (key_type : String)
    (args : List String) (now : ℚ) : Option Json :=
  match client with
  | .unavailable => none
  | .failing => none
  | .ok =>
    match cLookup store (make_key key_type args) with
    | some e => if now < e.expireAt then some e.value else none
    | none => none

/-- `CacheManager.set`: `False` when the client is absent or the write
raises; otherwise `SETEX key ttl (json.dumps value)` and `True`.  The `ttl`
keyword argument is `ttl or self.ttl_config.get(key_type, 5min)`. -/
def cache_set (client : Client) (store : CStore) (key_type : String)
    (value : Json) (args : List String) (ttl : Option ℚ) (now : ℚ) :
    Bool × CStore :=
  match client with
  | .unavailable => (false, store)
  | .failing => (false, store)
  | .ok =>
    let key := make_key key_type args
    let t := match ttl with
      | some t => t
      | none => ttl_config key_type
    (true, cSet store key { value := value, expireAt := now + t })

/-- `CacheManager.delete`: `DEL key` returns the number of live keys
removed; the method reports `result > 0`. -/
def cache_delete (client : Client) (store : CStore) (key_type : String)
    (args : List String) (now : ℚ) : Bool × CStore :=
  match client with
  | .unavailable => (false, store)
  | .failing => (false, store)
  | .ok =>
    let key := make_key key_type args
    let live := match cLookup store key with
      | some e => decide (now < e.expireAt)
      | none => false
    (live, store.filter (fun p => !(p.1 == key)))

/-- Redis `KEYS`-style glob matching (`*` any run, `?` one character;
the repository's patterns use no character classes or escapes). -/
def tailsList : List Char → List (List Char)
  | [] => [[]]
  | c :: cs => (c :: cs) :: tailsList cs

/-- Glob matcher over explicit character lists, structurally recursive in
the pattern (a `*` tries every suffix of the subject). -/
def globMatch : List Char → List Char → Bool
  | [], s => s.isEmpty
  | '*' :: ps, s => (tailsList s).any (fun t => globMatch ps t)
  | '?' :: ps, s =>
    match s with
    | [] => false
    | _ :: cs => globMatch ps cs
  | c :: ps, s =>
    match s with
    | [] => false
    | c2 :: cs => c == c2 && globMatch ps cs

/-- `CacheManager.invalidate_pattern`: enumerate the live keys matching
`f"airtable:{pattern}"`, delete them, and return how many were deleted
(0 when the client is absent, nothing matched, or a step raised). -/
def invalidate_pattern (client : Client) (store : CStore) (pattern : String)
    (now : ℚ) : Nat × CStore :=
  match client with
  | .unavailable => (0, store)
  | .failing => (0, store)
  | .ok =>
    let full := "airtable" ++ ":" ++ pattern
    let hit := fun (p : String × CEntry) =>
      globMatch full.data p.1.data && decide (now < p.2.expireAt)
    let matched := store.filter hit
    if matched.isEmpty then (0, store)
    else (matched.length, store.filter (fun p => !(hit p)))

/-- `CacheManager.invalidate_base`: `invalidate_pattern(f"*:{base_id}:*")`. -/
def invalidate_base (client : Client) (store : CStore) (base_id : String)
    (now : ℚ) : Nat × CStore :=
  invalidate_pattern client store ("*:" ++ base_id ++ ":*") now

/-- The dictionary returned by `CacheManager.health_check`. -/
structure HealthResult where
  status : String
  latency_ms : Option ℚ
  memory_used : Option String
  connected_clients : Option Int
  error : Option String
deriving DecidableEq, Repr

/-- `CacheManager.health_check`: `{"status": "disconnected", "error": "No
Redis connection"}` without a client; on a reachable store a `PING`
round-trip and `INFO memory`, reported as healthy with the measured latency
and the store diagnostics (passed here as parameters, as they come from the
external store); `{"status": "error", "error": str(e)}` when the probe
raises. -/
def health_check (client : Client) (latency_ms : ℚ) (memory_used : String)
    (connected_clients : Int) (errMsg : String) : HealthResult :=
  match client with
  | .unavailable =>
    { status := "disconnected", latency_ms := none, memory_used := none
      connected_clients := none, error := some "No Redis connection" }
  | .failing =>
    { status := "error", latency_ms := none, memory_used := none
      connected_clients := none, error := some errMsg }
  | .ok =>
    { status := "healthy", latency_ms := some latency_ms
      memory_used := some memory_used
      connected_clients := some connected_clients, error := none }

/-- Reduce to a 32-bit word. -/
def u32 (n : Nat) : Nat := n % 4294967296

/-- 32-bit rotate left. -/
def rotl32 (x s : Nat) : Nat := u32 ((x <<< s) ||| (x >>> (32 - s)))

/-- 32-bit rotate right. -/
def rotr32 (x s : Nat) : Nat := u32 ((x >>> s) ||| (x <<< (32 - s)))

/-- UTF-8 bytes of one character (`str.encode()`). -/
def utf8Bytes (c : Char) : List Nat :=
  let n := c.toNat
  if n < 128 then [n]
  else if n < 2048 then [192 + n / 64, 128 + n % 64]
  else if n < 65536 then [224 + n / 4096, 128 + n / 64 % 64, 128 + n % 64]
  else [240 + n / 262144, 128 + n / 4096 % 64, 128 + n / 64 % 64, 128 + n % 64]

/-- UTF-8 bytes of a string (`str.encode()`). -/
def strBytes (s : String) : List Nat :=
  s.data.foldr (fun c acc => utf8Bytes c ++ acc) []

/-- Merkle–Damgård padding shared by MD5 and SHA-256: append `0x80`, zero
bytes to 56 mod 64, then the 64-bit original bit length (little-endian for
MD5, big-endian for SHA-256). -/
def mdPad (msg : List Nat) (littleEndian : Bool) : List Nat :=
  let len := msg.length
  let zeros := (64 + 55 - len % 64) % 64
  let bitLen := len * 8
  let lenBytes :=
    if littleEndian then (List.range 8).map (fun i => bitLen >>> (8 * i) % 256)
    else (List.range 8).map (fun i => bitLen >>> (8 * (7 - i)) % 256)
  msg ++ 128 :: List.replicate zeros 0 ++ lenBytes

/-- Split into 64-byte blocks (fuel-structured so it kernel-reduces). -/
def chunksAux (fuel : Nat) (l : List Nat) : List (List Nat) :=
  match fuel with
  | 0 => []
  | f + 1 =>
    match l with
    | [] => []
    | _ => l.take 64 :: chunksAux f (l.drop 64)

/-- Split a byte list into 64-byte blocks. -/
def chunks64 (l : List Nat) : List (List Nat) := chunksAux l.length l

/-- The 16 little-endian 32-bit words of one MD5 block. -/
def leWords (block : List Nat) : List Nat :=
  (List.range 16).map (fun j =>
    block.getD (4 * j) 0 + 256 * block.getD (4 * j + 1) 0 +
      65536 * block.getD (4 * j + 2) 0 + 16777216 * block.getD (4 * j + 3) 0)

/-- The 16 big-endian 32-bit words of one SHA-256 block. -/
def beWords (block : List Nat) : List Nat :=
  (List.range 16).map (fun j =>
    16777216 * block.getD (4 * j) 0 + 65536 * block.getD (4 * j + 1) 0 +
      256 * block.getD (4 * j + 2) 0 + block.getD (4 * j + 3) 0)

/-- The MD5 sine-derived round constants `K[0..63]` (RFC 1321). -/
def md5K : List Nat :=
  [3614090360, 3905402710, 606105819, 3250441966, 4118548399, 1200080426, 2821735955,
   4249261313, 1770035416, 2336552879, 4294925233, 2304563134, 1804603682, 4254626195,
   2792965006, 1236535329, 4129170786, 3225465664, 643717713, 3921069994, 3593408605, 38016083,
   3634488961, 3889429448, 568446438, 3275163606, 4107603335, 1163531501, 2850285829,
   4243563512, 1735328473, 2368359562, 4294588738, 2272392833, 1839030562, 4259657740,
   2763975236, 1272893353, 4139469664, 3200236656, 681279174, 3936430074, 3572445317, 76029189,
   3654602809, 3873151461, 530742520, 3299628645, 4096336452, 1126891415, 2878612391,
   4237533241, 1700485571, 2399980690, 4293915773, 2240044497, 1873313359, 4264355552,
   2734768916, 1309151649, 4149444226, 3174756917, 718787259, 3951481745]

/-- The MD5 per-round left-rotation amounts `s[0..63]`. -/
def md5S : List Nat :=
  [7, 12, 17, 22, 7, 12, 17, 22, 7, 12, 17, 22, 7, 12, 17, 22,
   5, 9, 14, 20, 5, 9, 14, 20, 5, 9, 14, 20, 5, 9, 14, 20,
   4, 11, 16, 23, 4, 11, 16, 23, 4, 11, 16, 23, 4, 11, 16, 23,
   6, 10, 15, 21, 6, 10, 15, 21, 6, 10, 15, 21, 6, 10, 15, 21]

/-- One MD5 round on state `(a, b, c, d)` with message words `M`. -/
def md5Round (M : List Nat) (st : Nat × Nat × Nat × Nat) (i : Nat) :
    Nat × Nat × Nat × Nat :=
  let (a, b, c, d) := st
  let f :=
    if i < 16 then (b &&& c) ||| ((b ^^^ 4294967295) &&& d)
    else if i < 32 then (d &&& b) ||| ((d ^^^ 4294967295) &&& c)
    else if i < 48 then b ^^^ c ^^^ d
    else c ^^^ (b ||| (d ^^^ 4294967295))
  let g :=
    if i < 16 then i
    else if i < 32 then (5 * i + 1) % 16
    else if i < 48 then (3 * i + 5) % 16
    else 7 * i % 16
  let tmp := u32 (f + a + md5K.getD i 0 + M.getD g 0)
  (d, u32 (b + rotl32 tmp (md5S.getD i 0)), b, c)

/-- Process one 64-byte MD5 block. -/
def md5Block (st : Nat × Nat × Nat × Nat) (block : List Nat) :
    Nat × Nat × Nat × Nat :=
  let M := leWords block
  let (a0, b0, c0, d0) := st
  let (a, b, c, d) := (List.range 64).foldl (md5Round M) st
  (u32 (a0 + a), u32 (b0 + b), u32 (c0 + c), u32 (d0 + d))

/-- The four bytes of a 32-bit word, little-endian. -/
def wordLE (w : Nat) : List Nat :=
  [w % 256, w >>> 8 % 256, w >>> 16 % 256, w >>> 24 % 256]

/-- MD5 digest (16 bytes) of a byte string. -/
def md5Bytes (msg : List Nat) : List Nat :=
  let init : Nat × Nat × Nat × Nat :=
    (1732584193, 4023233417, 2562383102, 271733878)
  let (a, b, c, d) := (chunks64 (mdPad msg true)).foldl md5Block init
  wordLE a ++ wordLE b ++ wordLE c ++ wordLE d

/-- Lowercase hex digits. -/
def hexDigitChars : List Char := "0123456789abcdef".data

/-- Two lowercase hex characters of one byte. -/
def byteHex (b : Nat) : List Char :=
  [hexDigitChars.getD (b / 16) '0', hexDigitChars.getD (b % 16) '0']

/-- Lowercase hex characters of a byte string (`hexdigest()`). -/
def bytesToHex (bs : List Nat) : List Char :=
  bs.foldr (fun b acc => byteHex b ++ acc) []

/-- The SHA-256 round constants `K[0..63]` (FIPS 180-4). -/
def sha256K : List Nat :=
  [1116352408, 1899447441, 3049323471, 3921009573, 961987163, 1508970993, 2453635748,
   2870763221, 3624381080, 310598401, 607225278, 1426881987, 1925078388, 2162078206, 2614888103,
   3248222580, 3835390401, 4022224774, 264347078, 604807628, 770255983, 1249150122, 1555081692,
   1996064986, 2554220882, 2821834349, 2952996808, 3210313671, 3336571891, 3584528711,
   113926993, 338241895, 666307205, 773529912, 1294757372, 1396182291, 1695183700, 1986661051,
   2177026350, 2456956037, 2730485921, 2820302411, 3259730800, 3345764771, 3516065817,
   3600352804, 4094571909, 275423344, 430227734, 506948616, 659060556, 883997877, 958139571,
   1322822218, 1537002063, 1747873779, 1955562222, 2024104815, 2227730452, 2361852424,
   2428436474, 2756734187, 3204031479, 3329325298]

/-- SHA-256 message schedule: extend 16 words to 64. -/
def sha256Schedule (w0 : List Nat) : List Nat :=
  (List.range 48).foldl
    (fun w i =>
      let x1 := w.getD (i + 1) 0
      let x14 := w.getD (i + 14) 0
      let s0 := rotr32 x1 7 ^^^ rotr32 x1 18 ^^^ (x1 >>> 3)
      let s1 := rotr32 x14 17 ^^^ rotr32 x14 19 ^^^ (x14 >>> 10)
      w ++ [u32 (w.getD i 0 + s0 + w.getD (i + 9) 0 + s1)])
    w0

/-- SHA-256 working state. -/
structure SHAState where
  a : Nat
  b : Nat
  c : Nat
  d : Nat
  e : Nat
  f : Nat
  g : Nat
  h : Nat

/-- One SHA-256 compression round. -/
def sha256Round (W : List Nat) (st : SHAState) (i : Nat) : SHAState :=
  let S1 := rotr32 st.e 6 ^^^ rotr32 st.e 11 ^^^ rotr32 st.e 25
  let ch := (st.e &&& st.f) ^^^ ((st.e ^^^ 4294967295) &&& st.g)
  let temp1 := u32 (st.h + S1 + ch + sha256K.getD i 0 + W.getD i 0)
  let S0 := rotr32 st.a 2 ^^^ rotr32 st.a 13 ^^^ rotr32 st.a 22
  let maj := (st.a &&& st.b) ^^^ (st.a &&& st.c) ^^^ (st.b &&& st.c)
  let temp2 := u32 (S0 + maj)
  { a := u32 (temp1 + temp2), b := st.a, c := st.b, d := st.c
    e := u32 (st.d + temp1), f := st.e, g := st.f, h := st.g }

/-- Process one 64-byte SHA-256 block. -/
def sha256Block (st : SHAState) (block : List Nat) : SHAState :=
  let W := sha256Schedule (beWords block)
  let r := (List.range 64).foldl (sha256Round W) st
  { a := u32 (st.a + r.a), b := u32 (st.b + r.b), c := u32 (st.c + r.c)
    d := u32 (st.d + r.d), e := u32 (st.e + r.e), f := u32 (st.f + r.f)
    g := u32 (st.g + r.g), h := u32 (st.h + r.h) }

/-- The four bytes of a 32-bit word, big-endian. -/
def wordBE (w : Nat) : List Nat :=
  [w >>> 24 % 256, w >>> 16 % 256, w >>> 8 % 256, w % 256]

/-- SHA-256 digest (32 bytes) of a byte string. -/
def sha256Bytes (msg : List Nat) : List Nat :=
  let init : SHAState :=
    { a := 1779033703, b := 3144134277, c := 1013904242, d := 2773480762
      e := 1359893119, f := 2600822924, g := 528734635, h := 1541459225 }
  let r := (chunks64 (mdPad msg false)).foldl sha256Block init
  wordBE r.a ++ wordBE r.b ++ wordBE r.c ++ wordBE r.d ++
    wordBE r.e ++ wordBE r.f ++ wordBE r.g ++ wordBE r.h

/-- Four lowercase hex characters of a value below 0x10000. -/
def hex4 (n : Nat) : List Char :=
  [hexDigitChars.getD (n / 4096 % 16) '0', hexDigitChars.getD (n / 256 % 16) '0',
   hexDigitChars.getD (n / 16 % 16) '0', hexDigitChars.getD (n % 16) '0']

/-- `json.dumps` escaping of one character (default `ensure_ascii=True`):
the two-character escapes, `\uXXXX` for other control or non-ASCII
characters, and a UTF-16 surrogate pair for astral characters. -/
def jsonEscapeChar (c : Char) : List Char :=
  if c = '"' then ['\\', '"']
  else if c = '\\' then ['\\', '\\']
  else if c = '\n' then ['\\', 'n']
  else if c = '\t' then ['\\', 't']
  else if c = '\r' then ['\\', 'r']
  else if c = '\x08' then ['\\', 'b']
  else if c = '\x0c' then ['\\', 'f']
  else if c.toNat < 32 ∨ 126 < c.toNat then
    if c.toNat < 65536 then '\\' :: 'u' :: hex4 c.toNat
    else
      let v := c.toNat - 65536
      ('\\' :: 'u' :: hex4 (55296 + v / 1024)) ++ ('\\' :: 'u' :: hex4 (56320 + v % 1024))
  else [c]

/-- `json.dumps` of a Python string. -/
def jsonStrChars (s : String) : List Char :=
  '"' :: s.data.foldr (fun c acc => jsonEscapeChar c ++ acc) ['"']

/-- Decimal digits of a natural number (fuel-structured). -/
def natDigitsAux (fuel n : Nat) : List Char :=
  match fuel with
  | 0 => []
  | f + 1 =>
    if n < 10 then [hexDigitChars.getD n '0']
    else natDigitsAux f (n / 10) ++ [hexDigitChars.getD (n % 10) '0']

/-- `json.dumps` of a Python int. -/
def jsonIntChars (i : Int) : List Char :=
  if i < 0 then '-' :: natDigitsAux (i.natAbs + 1) i.natAbs
  else natDigitsAux (i.natAbs + 1) i.natAbs

/-- Join with `json.dumps`'s default item separator `", "`. -/
def commaJoin : List (List Char) → List Char
  | [] => []
  | [a] => a
  | a :: rest => a ++ ',' :: ' ' :: commaJoin rest

/-- `json.dumps` of `Optional[str]` (`None` is `null`). -/
def jsonOptStrChars : Option String → List Char
  | none => ['n', 'u', 'l', 'l']
  | some s => jsonStrChars s

/-- `json.dumps` of `Optional[List[str]]`. -/
def jsonOptListChars : Option (List String) → List Char
  | none => ['n', 'u', 'l', 'l']
  | some xs => '[' :: commaJoin (xs.map jsonStrChars) ++ [']']

/-- The canonical query encoding built inside `create_query_hash`:
`json.dumps({"max_records": .., "view": .., "formula": .., "sort": ..},
sort_keys=True, default=str)`.  With keys sorted the emitted order is
`formula`, `max_records`, `sort`, `view`, with default separators. -/
def queryJsonChars (max_records : Int) (view formula : Option String)
    (sort : Option (List String)) : List Char :=
  ('\x7b' :: "\"formula\": ".data ++ jsonOptStrChars formula)
    ++ (", \"max_records\": ".data ++ jsonIntChars max_records)
    ++ (", \"sort\": ".data ++ jsonOptListChars sort)
    ++ (", \"view\": ".data ++ jsonOptStrChars view) ++ ['\x7d']

/-- `create_query_hash`: the first 12 lowercase hex characters of the MD5
digest of the canonical query encoding (its `ensure_ascii` output is pure
ASCII, so `.encode()` is the identity on code points). -/
def create_query_hash (max_records : Int) (view : Option String)
    (formula : Option String) (sort : Option (List String)) : String :=
  let query_str := queryJsonChars max_records view formula sort
  String.mk ((bytesToHex (md5Bytes (query_str.map Char.toNat))).take 12)

/-- `AirtableRateLimiter.check_global_limit`: identifier
`f"global:{api_key_hash}"` where `api_key_hash` is the first 12 hex
characters of SHA-256 of the key; limit 100, window 60 seconds. -/
def check_global_limit (client : Client) (store : RLStore) (api_key : String)
    (now : ℚ) : RLResult × RLStore :=
  let api_key_hash := String.mk ((bytesToHex (sha256Bytes (strBytes api_key))).take 12)
  slidingWindowCheck client store ("global:" ++ api_key_hash) 100 60 now

/-- The dictionary returned by `check_rate_limits`: exactly one of the
three branch shapes (`limit_type`/`result` on a denial, the two
sub-results on an allowance). -/
structure CRLResult where
  allowed : Bool
  limit_type : Option String
  result : Option RLResult
  global_result : Option RLResult
  base_result : Option RLResult
deriving DecidableEq, Repr

/-- `check_rate_limits(base_id, api_key)`: the global check runs first; a
global denial returns at once (the base check is not reached), otherwise
the base check runs; the two checks observe the store at their own times
`nowG` and `nowB`. -/
def check_rate_limits (client : Client) (store : RLStore)
    (base_id api_key : String) (nowG nowB : ℚ) : CRLResult × RLStore :=
  let gr := check_global_limit client store api_key nowG
  if gr.1.allowed = false then
    ({ allowed := false, limit_type := some "global", result := some gr.1
       global_result := none, base_result := none }, gr.2)
  else
    let br := check_base_limit client gr.2 base_id nowB
    if br.1.allowed = false then
      ({ allowed := false, limit_type := some "base", result := some br.1
         global_result := none, base_result := none }, br.2)
    else
      ({ allowed := true, limit_type := none, result := none
         global_result := some gr.1, base_result := some br.1 }, br.2)

/-- `AirtableRateLimiter.__init__`: `self.redis = redis_client or
cache_manager.client`; a passed client object is truthy, `None` falls back
to whatever `cache_manager.client` is at construction time. -/
def airtableRateLimiterInit (redis_client cache_client : Client) : Client :=
  if redis_client = .unavailable then cache_client else redis_client

/-- The two module-level attributes the request path reads:
`cache_manager.client` and `rate_limiter.redis`. -/
structure ProcessState where
  cache_manager_client : Client
  rate_limiter_redis : Client
deriving DecidableEq, Repr

/-- Import-time module state: `cache_manager = CacheManager()` starts with
`self.client = None`, and `rate_limiter = AirtableRateLimiter()` is built
at import time from that still-absent client. -/
def importState : ProcessState :=
  { cache_manager_client := .unavailable
    rate_limiter_redis := airtableRateLimiterInit .unavailable .unavailable }

/-- `cache_manager.connect()`: rebinds `cache_manager.client` only; the
limiter's captured `self.redis` is not touched. -/
def connectCache (s : ProcessState) (newClient : Client) : ProcessState :=
  { s with cache_manager_client := newClient }

/-- The keyspace with no rate-limit windows recorded. -/
def emptyRLStore : RLStore := fun _ => emptyWindow

/-- A keyspace holding one recorded timestamp `1/2` for identifier `x`. -/
def oneEntryRLStore : RLStore := fun k =>
  if k = rlKey "x" then { tss := [(1 : ℚ) / 2], expireAt := none }
  else emptyWindow

/-- A keyspace whose global window for the key `"key1"` (SHA-256 prefix
`8174099687a2`) already holds 100 recent timestamps, so the next global
check at `now = 1` with window 60 is denied. -/
def globalDenyRLStore : RLStore := fun k =>
  if k = "airtable_rate_limit:global:8174099687a2" then
    { tss := (List.range 100).map (fun i => (i : ℚ) / 100), expireAt := none }
  else emptyWindow

/-- The behaviour `_sliding_window_check` exhibits on a reachable store
(claim C1's contract, with `retry_after` as the code computes it: the
`int()` truncation of `oldest + window − now`): everything older than
`now − W` is evicted, the key expiry becomes `now + W`, the request is
allowed iff the surviving count is below the limit, an allowance records
`now` and reports `limit − current − 1`, and a denial leaves exactly the
survivors with `remaining = 0`. -/
def slidingWindowContract (store : RLStore) (ident : String) (L W : Nat)
    (now : ℚ) : Prop :=
  let survivors :=
    (store (rlKey ident)).tss.filter (fun t => decide (now - (W : ℚ) < t))
  let out := slidingWindowCheck .ok store ident L W now
  let final := out.2 (rlKey ident)
  (∀ t ∈ (store (rlKey ident)).tss, t < now - (W : ℚ) → t ∉ final.tss)
    ∧ final.expireAt = some (now + W)
    ∧ (out.1.allowed = true ↔ survivors.length < L)
    ∧ (survivors.length < L →
        out.1.remaining = (L : Int) - survivors.length - 1 ∧
        final.tss = survivors ++ [now] ∧ out.1.retry_after = 0)
    ∧ (L ≤ survivors.length →
        out.1.remaining = 0 ∧ final.tss = survivors ∧
        ∀ o ∈ survivors.min?, out.1.retry_after = pyInt (o + (W : ℚ) - now))

/-- The claim-C3 scenario: seven consecutive base-limit checks (limit 5,
window 1 s) against one identifier at times `t1 < … < t6` inside one
window and `t7` past it; the first five are allowed with remaining
4,3,2,1,0, the sixth is denied with `retry_after = int(t1 + 1 − t6)`
(which is non-negative but 0 whenever `t1 < t6`), and the seventh is
allowed again with a fresh window. -/
def c3TraceProp (B : String) (store : RLStore) (t1 t2 t3 t4 t5 t6 t7 : ℚ) :
    Prop :=
  let r1 := check_base_limit .ok store B t1
  let r2 := check_base_limit .ok r1.2 B t2
  let r3 := check_base_limit .ok r2.2 B t3
  let r4 := check_base_limit .ok r3.2 B t4
  let r5 := check_base_limit .ok r4.2 B t5
  let r6 := check_base_limit .ok r5.2 B t6
  let r7 := check_base_limit .ok r6.2 B t7
  r1.1.allowed = true ∧ r1.1.remaining = 4
    ∧ r2.1.allowed = true ∧ r2.1.remaining = 3
    ∧ r3.1.allowed = true ∧ r3.1.remaining = 2
    ∧ r4.1.allowed = true ∧ r4.1.remaining = 1
    ∧ r5.1.allowed = true ∧ r5.1.remaining = 0
    ∧ r6.1.allowed = false ∧ r6.1.retry_after = pyInt (t1 + 1 - t6)
    ∧ 0 ≤ r6.1.retry_after
    ∧ r7.1.allowed = true ∧ r7.1.remaining = 4

/-- A cache keyspace for base `B1` holding its schema entry, a record-list
entry and a single-record entry, plus a record-list entry of another base
`B2`; all entries are live until `t = 1000`. -/
def c8CacheStore : CStore :=
  [("airtable:schema:B1", { value := Json.str "schema", expireAt := 1000 }),
   ("airtable:records:B1:T1:h1", { value := Json.arr [], expireAt := 1000 }),
   ("airtable:record:B1:T1:r1", { value := Json.obj [], expireAt := 1000 }),
   ("airtable:records:B2:T1:h1", { value := Json.arr [], expireAt := 1000 })]

/-- The first of six base-limit checks at times 0, 0.1, …, 0.5 from the
empty keyspace (the claim-C3 scenario with concrete times). -/
def c3r1 : RLResult × RLStore := check_base_limit .ok emptyRLStore "B" 0

/-- The second check of the concrete claim-C3 scenario. -/
def c3r2 : RLResult × RLStore := check_base_limit .ok c3r1.2 "B" (1/10)

/-- The third check of the concrete claim-C3 scenario. -/
def c3r3 : RLResult × RLStore := check_base_limit .ok c3r2.2 "B" (2/10)

/-- The fourth check of the concrete claim-C3 scenario. -/
def c3r4 : RLResult × RLStore := check_base_limit .ok c3r3.2 "B" (3/10)

/-- The fifth check of the concrete claim-C3 scenario. -/
def c3r5 : RLResult × RLStore := check_base_limit .ok c3r4.2 "B" (4/10)

/-- The sixth check of the concrete claim-C3 scenario, issued at 0.5,
still within one second of the first. -/
def c3r6 : RLResult × RLStore := check_base_limit .ok c3r5.2 "B" (5/10)

theorem rlSet_same (s : RLStore) (k : String) (w : RLWindow) : rlSet s k w k = w := by
  simp [rlSet]

theorem rlSet_ne (s : RLStore) (k : String) (w : RLWindow) (k2 : String)
    (h : k2 ≠ k) : rlSet s k w k2 = s k2 := by
  simp [rlSet, h]

theorem rlSet_rlSet (s : RLStore) (k : String) (w1 w2 : RLWindow) :
    rlSet (rlSet s k w1) k w2 = rlSet s k w2 := by
  funext k2
  by_cases h : k2 = k <;> simp [rlSet, h]

theorem foldl_min_of_le {a : ℚ} {l : List ℚ} (h : ∀ b ∈ l, a ≤ b) :
    l.foldl min a = a := by
  induction l generalizing a with
  | nil => rfl
  | cons b t ih =>
    simp only [List.foldl_cons]
    rw [min_eq_left (h b (List.mem_cons_self b t))]
    exact ih fun c hc => h c (List.mem_cons_of_mem b hc)

theorem min?_cons_of_le (a : ℚ) (l : List ℚ) (h : ∀ b ∈ l, a ≤ b) :
    (a :: l).min? = some a := by
  rw [List.min?_cons', foldl_min_of_le h]

/-- Characterization of `_sliding_window_check` on a reachable store whose
recorded timestamps are past and non-negative: the eviction keeps exactly
the entries newer than `now − W`, and the outcome splits on whether the
surviving count already reached the limit. -/
theorem swc_ok (store : RLStore) (ident : String) (L W : Nat) (now : ℚ)
    (hpast : ∀ t ∈ (store (rlKey ident)).tss, 0 ≤ t ∧ t < now) :
    slidingWindowCheck .ok store ident L W now =
      (let survivors :=
        (store (rlKey ident)).tss.filter (fun t => decide (now - (W : ℚ) < t))
      if L ≤ survivors.length then
        ({ allowed := false, remaining := 0
           reset_time := (match survivors.min? with
             | some o => o + (W : ℚ)
             | none => now + (W : ℚ))
           retry_after := pyInt ((match survivors.min? with
             | some o => o + (W : ℚ)
             | none => now + (W : ℚ)) - now)
           limit := L, window_seconds := W },
         rlSet store (rlKey ident)
           { tss := survivors, expireAt := some (now + (W : ℚ)) })
      else
        ({ allowed := true, remaining := (L : Int) - survivors.length - 1
           reset_time := now + (W : ℚ), retry_after := 0
           limit := L, window_seconds := W },
         rlSet store (rlKey ident)
           { tss := survivors ++ [now], expireAt := some (now + (W : ℚ)) })) := by
  have hfil : (store (rlKey ident)).tss.filter
        (fun t => decide (¬ (0 ≤ t ∧ t ≤ now - (W : ℚ)))) =
      (store (rlKey ident)).tss.filter (fun t => decide (now - (W : ℚ) < t)) := by
    apply List.filter_congr
    intro t ht
    have h0 := (hpast t ht).1
    simp [decide_eq_decide, h0, not_le]
  have hmem : now ∉ (store (rlKey ident)).tss.filter
      (fun t => decide (now - (W : ℚ) < t)) := by
    intro hmem
    exact absurd (hpast now (List.mem_of_mem_filter hmem)).2 (lt_irrefl now)
  have hrem : ((store (rlKey ident)).tss.filter
        (fun t => decide (now - (W : ℚ) < t)) ++ [now]).filter
          (fun t => decide (¬ t = now)) =
      (store (rlKey ident)).tss.filter (fun t => decide (now - (W : ℚ) < t)) := by
    rw [List.filter_append]
    have h1 : [now].filter (fun t => decide (¬ t = now)) = [] := by simp
    rw [h1, List.append_nil]
    rw [List.filter_eq_self.mpr]
    intro a ha
    have := (hpast a (List.mem_of_mem_filter ha)).2
    simpa using ne_of_lt this
  simp only [slidingWindowCheck]
  rw [hfil, if_neg hmem, hrem, rlSet_rlSet]

/-- C1 (amended): for every identifier, limit `L ≥ 1` and window `W`, on a
reachable store whose recorded timestamps are non-negative and in the
past, `_sliding_window_check` evicts everything older than `now − W`,
counts the survivors, refreshes the key expiry to `W`, allows iff
`current < L` with `remaining = L − current − 1` (recording `now`), and on
a denial removes the just-added timestamp, reports `remaining = 0` and
`retry_after = int(oldest + W − now)` — the `int()` truncation of the
claimed quantity. -/
theorem sliding_window_check_contract (store : RLStore) (ident : String)
    (L W : Nat) (now : ℚ) (hL : 1 ≤ L) (hW : 1 ≤ W)
    (hpast : ∀ t ∈ (store (rlKey ident)).tss, 0 ≤ t ∧ t < now) :
    slidingWindowContract store ident L W now := by
  unfold slidingWindowContract
  rw [swc_ok store ident L W now hpast]
  simp only
  by_cases hc : L ≤ ((store (rlKey ident)).tss.filter
      (fun t => decide (now - (W : ℚ) < t))).length
  · rw [if_pos hc]
    simp only [rlSet_same]
    refine ⟨?_, by trivial, ?_, ?_, ?_⟩
    · intro t ht hold hmem
      have h2 := of_decide_eq_true (List.mem_filter.mp hmem).2
      exact absurd h2 (not_lt.mpr (le_of_lt hold))
    · constructor
      · intro h
        exact absurd h (by simp)
      · intro h
        exact absurd h (not_lt.mpr hc)
    · intro h
      exact absurd h (not_lt.mpr hc)
    · intro _
      refine ⟨by trivial, by trivial, ?_⟩
      intro o ho
      rw [Option.mem_def] at ho
      rw [ho]
  · rw [if_neg hc]
    simp only [rlSet_same]
    have hlt := lt_of_not_le hc
    refine ⟨?_, by trivial, ?_, ?_, ?_⟩
    · intro t ht hold hmem
      rcases List.mem_append.mp hmem with h1 | h1
      · have h2 := of_decide_eq_true (List.mem_filter.mp h1).2
        exact absurd h2 (not_lt.mpr (le_of_lt hold))
      · have ht1 : t = now := by simpa using h1
        have hW0 : (0 : ℚ) ≤ (W : ℚ) := Nat.cast_nonneg W
        have h3 : now - (W : ℚ) ≤ now := by linarith
        rw [ht1] at hold
        exact absurd hold (not_lt.mpr h3)
    · simp [hlt]
    · intro _
      exact ⟨by trivial, by trivial, by trivial⟩
    · intro h
      exact absurd h (not_le.mpr hlt)

/-- C1 counterexample to the claim's exact `retry_after` equality: with one
recorded timestamp `1/2`, limit 1, window 1 and `now = 3/4`, the check is
denied and the code reports `retry_after = 0`, while the claimed value
`oldest + W − now = 1/2 + 1 − 3/4 = 3/4` is non-zero. -/
theorem sliding_window_retry_after_truncated :
    (slidingWindowCheck .ok oneEntryRLStore "x" 1 1 (3/4)).1.allowed = false
    ∧ (slidingWindowCheck .ok oneEntryRLStore "x" 1 1 (3/4)).1.retry_after = 0
    ∧ ¬ (((1 : ℚ)/2 + 1 - 3/4) = 0) := by
  decide

/-- C1 witness: the contract instantiated on the concrete one-entry store. -/
theorem sliding_window_check_contract_witness :
    (1 ≤ 1 ∧ 1 ≤ 1 ∧ ∀ t ∈ (oneEntryRLStore (rlKey "x")).tss, 0 ≤ t ∧ t < 3/4)
    ∧ slidingWindowContract oneEntryRLStore "x" 1 1 (3/4) :=
  ⟨⟨by decide, by decide, by decide⟩,
   sliding_window_check_contract oneEntryRLStore "x" 1 1 (3/4)
     (by decide) (by decide) (by decide)⟩

theorem pyInt_nonneg {q : ℚ} (h : 0 ≤ q) : 0 ≤ pyInt q := by
  unfold pyInt
  exact Int.tdiv_nonneg (Rat.num_nonneg.mpr h) (Int.natCast_nonneg q.den)

/-- C3 (amended): with limit 5 and window 1 s, five checks at strictly
increasing times inside one second are allowed with remaining
4, 3, 2, 1, 0; the sixth inside that second is denied with
`retry_after = int(t1 + 1 − t6)` (non-negative, and 0 whenever `t1 < t6`);
a check after the window has fully elapsed is allowed again. -/
theorem base_limit_trace (B : String) (store : RLStore) (t1 t2 t3 t4 t5 t6 t7 : ℚ)
    (h0 : 0 ≤ t1) (h12 : t1 < t2) (h23 : t2 < t3) (h34 : t3 < t4) (h45 : t4 < t5)
    (h56 : t5 < t6) (h61 : t6 < t1 + 1) (h7 : t5 + 1 < t7)
    (hempty : (store (rlKey ("base:" ++ B))).tss = []) :
    c3TraceProp B store t1 t2 t3 t4 t5 t6 t7 := by
  have hp1 : ∀ t ∈ (store (rlKey ("base:" ++ B))).tss, 0 ≤ t ∧ t < t1 := by
    rw [hempty]
    intro t ht
    cases ht
  have e1 : slidingWindowCheck .ok store ("base:" ++ B) 5 1 t1 =
      ({ allowed := true, remaining := 4, reset_time := t1 + 1, retry_after := 0
         limit := 5, window_seconds := 1 },
       rlSet store (rlKey ("base:" ++ B))
         { tss := [t1], expireAt := some (t1 + 1) }) := by
    rw [swc_ok _ _ _ _ _ hp1, hempty]
    norm_num
  have hp2 : ∀ t ∈ ((rlSet store (rlKey ("base:" ++ B))
      { tss := [t1], expireAt := some (t1 + 1) }) (rlKey ("base:" ++ B))).tss,
      0 ≤ t ∧ t < t2 := by
    rw [rlSet_same]
    intro t ht
    simp only [List.mem_cons, List.mem_singleton, List.not_mem_nil, or_false] at ht
    rcases ht with rfl
    · exact ⟨h0, by linarith⟩
  have e2 : slidingWindowCheck .ok (rlSet store (rlKey ("base:" ++ B))
        { tss := [t1], expireAt := some (t1 + 1) }) ("base:" ++ B) 5 1 t2 =
      ({ allowed := true, remaining := 3, reset_time := t2 + 1, retry_after := 0
         limit := 5, window_seconds := 1 },
       rlSet store (rlKey ("base:" ++ B))
         { tss := [t1, t2], expireAt := some (t2 + 1) }) := by
    rw [swc_ok _ _ _ _ _ hp2]
    simp only [rlSet_same, rlSet_rlSet]
    norm_num [List.filter, show t2 - 1 < t1 by linarith]
  have hp3 : ∀ t ∈ ((rlSet store (rlKey ("base:" ++ B))
      { tss := [t1, t2], expireAt := some (t2 + 1) }) (rlKey ("base:" ++ B))).tss,
      0 ≤ t ∧ t < t3 := by
    rw [rlSet_same]
    intro t ht
    simp only [List.mem_cons, List.mem_singleton, List.not_mem_nil, or_false] at ht
    rcases ht with rfl | rfl
    · exact ⟨h0, by linarith⟩
    · exact ⟨by linarith, by linarith⟩
  have e3 : slidingWindowCheck .ok (rlSet store (rlKey ("base:" ++ B))
        { tss := [t1, t2], expireAt := some (t2 + 1) }) ("base:" ++ B) 5 1 t3 =
      ({ allowed := true, remaining := 2, reset_time := t3 + 1, retry_after := 0
         limit := 5, window_seconds := 1 },
       rlSet store (rlKey ("base:" ++ B))
         { tss := [t1, t2, t3], expireAt := some (t3 + 1) }) := by
    rw [swc_ok _ _ _ _ _ hp3]
    simp only [rlSet_same, rlSet_rlSet]
    norm_num [List.filter, show t3 - 1 < t1 by linarith, show t3 - 1 < t2 by linarith]
  have hp4 : ∀ t ∈ ((rlSet store (rlKey ("base:" ++ B))
      { tss := [t1, t2, t3], expireAt := some (t3 + 1) }) (rlKey ("base:" ++ B))).tss,
      0 ≤ t ∧ t < t4 := by
    rw [rlSet_same]
    intro t ht
    simp only [List.mem_cons, List.mem_singleton, List.not_mem_nil, or_false] at ht
    rcases ht with rfl | rfl | rfl
    · exact ⟨h0, by linarith⟩
    · exact ⟨by linarith, by linarith⟩
    · exact ⟨by linarith, by linarith⟩
  have e4 : slidingWindowCheck .ok (rlSet store (rlKey ("base:" ++ B))
        { tss := [t1, t2, t3], expireAt := some (t3 + 1) }) ("base:" ++ B) 5 1 t4 =
      ({ allowed := true, remaining := 1, reset_time := t4 + 1, retry_after := 0
         limit := 5, window_seconds := 1 },
       rlSet store (rlKey ("base:" ++ B))
         { tss := [t1, t2, t3, t4], expireAt := some (t4 + 1) }) := by
    rw [swc_ok _ _ _ _ _ hp4]
    simp only [rlSet_same, rlSet_rlSet]
    norm_num [List.filter, show t4 - 1 < t1 by linarith, show t4 - 1 < t2 by linarith, show t4 - 1 < t3 by linarith]
  have hp5 : ∀ t ∈ ((rlSet store (rlKey ("base:" ++ B))
      { tss := [t1, t2, t3, t4], expireAt := some (t4 + 1) }) (rlKey ("base:" ++ B))).tss,
      0 ≤ t ∧ t < t5 := by
    rw [rlSet_same]
    intro t ht
    simp only [List.mem_cons, List.mem_singleton, List.not_mem_nil, or_false] at ht
    rcases ht with rfl | rfl | rfl | rfl
    · exact ⟨h0, by linarith⟩
    · exact ⟨by linarith, by linarith⟩
    · exact ⟨by linarith, by linarith⟩
    · exact ⟨by linarith, by linarith⟩
  have e5 : slidingWindowCheck .ok (rlSet store (rlKey ("base:" ++ B))
        { tss := [t1, t2, t3, t4], expireAt := some (t4 + 1) }) ("base:" ++ B) 5 1 t5 =
      ({ allowed := true, remaining := 0, reset_time := t5 + 1, retry_after := 0
         limit := 5, window_seconds := 1 },
       rlSet store (rlKey ("base:" ++ B))
         { tss := [t1, t2, t3, t4, t5], expireAt := some (t5 + 1) }) := by
    rw [swc_ok _ _ _ _ _ hp5]
    simp only [rlSet_same, rlSet_rlSet]
    norm_num [List.filter, show t5 - 1 < t1 by linarith, show t5 - 1 < t2 by linarith, show t5 - 1 < t3 by linarith, show t5 - 1 < t4 by linarith]
  have hp6 : ∀ t ∈ ((rlSet store (rlKey ("base:" ++ B))
      { tss := [t1, t2, t3, t4, t5], expireAt := some (t5 + 1) }) (rlKey ("base:" ++ B))).tss,
      0 ≤ t ∧ t < t6 := by
    rw [rlSet_same]
    intro t ht
    simp only [List.mem_cons, List.mem_singleton, List.not_mem_nil, or_false] at ht
    rcases ht with rfl | rfl | rfl | rfl | rfl
    · exact ⟨h0, by linarith⟩
    · exact ⟨by linarith, by linarith⟩
    · exact ⟨by linarith, by linarith⟩
    · exact ⟨by linarith, by linarith⟩
    · exact ⟨by linarith, by linarith⟩
  have hmin : ([t1, t2, t3, t4, t5] : List ℚ).min? = some t1 := by
    apply min?_cons_of_le
    intro b hb
    simp only [List.mem_cons, List.mem_singleton, List.not_mem_nil, or_false] at hb
    rcases hb with rfl | rfl | rfl | rfl
    · linarith
    · linarith
    · linarith
    · linarith
  have e6 : slidingWindowCheck .ok (rlSet store (rlKey ("base:" ++ B))
        { tss := [t1, t2, t3, t4, t5], expireAt := some (t5 + 1) }) ("base:" ++ B) 5 1 t6 =
      ({ allowed := false, remaining := 0, reset_time := t1 + 1
         retry_after := pyInt (t1 + 1 - t6), limit := 5, window_seconds := 1 },
       rlSet store (rlKey ("base:" ++ B))
         { tss := [t1, t2, t3, t4, t5], expireAt := some (t6 + 1) }) := by
    rw [swc_ok _ _ _ _ _ hp6]
    simp only [rlSet_same, rlSet_rlSet]
    have hfil : ([t1, t2, t3, t4, t5] : List ℚ).filter
        (fun t => decide (t6 - ((1 : Nat) : ℚ) < t)) = [t1, t2, t3, t4, t5] := by
      norm_num [List.filter, show t6 - 1 < t1 by linarith, show t6 - 1 < t2 by linarith,
        show t6 - 1 < t3 by linarith, show t6 - 1 < t4 by linarith,
        show t6 - 1 < t5 by linarith]
    rw [hfil, hmin]
    norm_num
  have hp7 : ∀ t ∈ ((rlSet store (rlKey ("base:" ++ B))
      { tss := [t1, t2, t3, t4, t5], expireAt := some (t6 + 1) }) (rlKey ("base:" ++ B))).tss,
      0 ≤ t ∧ t < t7 := by
    rw [rlSet_same]
    intro t ht
    simp only [List.mem_cons, List.mem_singleton, List.not_mem_nil, or_false] at ht
    rcases ht with rfl | rfl | rfl | rfl | rfl
    · exact ⟨h0, by linarith⟩
    · exact ⟨by linarith, by linarith⟩
    · exact ⟨by linarith, by linarith⟩
    · exact ⟨by linarith, by linarith⟩
    · exact ⟨by linarith, by linarith⟩
  have e7 : slidingWindowCheck .ok (rlSet store (rlKey ("base:" ++ B))
        { tss := [t1, t2, t3, t4, t5], expireAt := some (t6 + 1) }) ("base:" ++ B) 5 1 t7 =
      ({ allowed := true, remaining := 4, reset_time := t7 + 1, retry_after := 0
         limit := 5, window_seconds := 1 },
       rlSet store (rlKey ("base:" ++ B))
         { tss := [t7], expireAt := some (t7 + 1) }) := by
    rw [swc_ok _ _ _ _ _ hp7]
    simp only [rlSet_same, rlSet_rlSet]
    norm_num [List.filter, show ¬ (t7 - 1 < t1) by linarith, show ¬ (t7 - 1 < t2) by linarith,
      show ¬ (t7 - 1 < t3) by linarith, show ¬ (t7 - 1 < t4) by linarith,
      show ¬ (t7 - 1 < t5) by linarith]
  unfold c3TraceProp check_base_limit
  rw [e1]
  simp only
  rw [e2]
  simp only
  rw [e3]
  simp only
  rw [e4]
  simp only
  rw [e5]
  simp only
  rw [e6]
  simp only
  rw [e7]
  simp only
  have hnn : 0 ≤ pyInt (t1 + 1 - t6) := pyInt_nonneg (by linarith)
  simp [hnn]

/-- C3 counterexample to `retry_after > 0`: five allowed checks at times
0, 0.1, 0.2, 0.3, 0.4 and a sixth at 0.5 within the same second; the sixth
is denied but `retry_after = int(0 + 1 − 0.5) = int(0.5) = 0`, not
positive. -/
theorem base_limit_sixth_retry_after_zero :
    c3r1.1.allowed = true ∧ c3r2.1.allowed = true ∧ c3r3.1.allowed = true
    ∧ c3r4.1.allowed = true ∧ c3r5.1.allowed = true
    ∧ c3r6.1.allowed = false ∧ c3r6.1.retry_after = 0
    ∧ ¬ (0 < c3r6.1.retry_after) := by
  decide

/-- C3 witness: the amended trace instantiated at times
0, 0.1, 0.2, 0.3, 0.4, 0.5, 2 from the empty keyspace. -/
theorem base_limit_trace_witness :
    ((0 : ℚ) ≤ 0 ∧ (0 : ℚ) < 1/10 ∧ (1/10 : ℚ) < 2/10 ∧ (2/10 : ℚ) < 3/10
      ∧ (3/10 : ℚ) < 4/10 ∧ (4/10 : ℚ) < 5/10 ∧ (5/10 : ℚ) < 0 + 1
      ∧ (4/10 : ℚ) + 1 < 2 ∧ (emptyRLStore (rlKey ("base:" ++ "B"))).tss = [])
    ∧ c3TraceProp "B" emptyRLStore 0 (1/10) (2/10) (3/10) (4/10) (5/10) 2 :=
  ⟨by decide,
   base_limit_trace "B" emptyRLStore 0 (1/10) (2/10) (3/10) (4/10) (5/10) 2
     (by decide) (by decide) (by decide) (by decide) (by decide) (by decide)
     (by decide) (by decide) (by decide)⟩

/-- C2: with the backing store unreachable (`None` client) or raising, every
cache operation absorbs the fault (get → absent, set → false, delete →
false, invalidate → 0, store untouched) and every rate-limit check fails
open with `remaining = limit − 1` and `retry_after = 0`. -/
theorem fail_open_all_operations :
    (∀ store kt args now, cache_get .unavailable store kt args now = none
      ∧ cache_get .failing store kt args now = none)
    ∧ (∀ store kt v args ttl now,
        (cache_set .unavailable store kt v args ttl now).1 = false
        ∧ (cache_set .failing store kt v args ttl now).1 = false)
    ∧ (∀ store kt args now,
        (cache_delete .unavailable store kt args now).1 = false
        ∧ (cache_delete .failing store kt args now).1 = false)
    ∧ (∀ store pat now,
        (invalidate_pattern .unavailable store pat now).1 = 0
        ∧ (invalidate_pattern .failing store pat now).1 = 0)
    ∧ (∀ store ident L W now,
        (slidingWindowCheck .unavailable store ident L W now).1 = failOpenResult L W now
        ∧ (slidingWindowCheck .failing store ident L W now).1 = failOpenResult L W now
        ∧ (slidingWindowCheck .unavailable store ident L W now).2 = store
        ∧ (slidingWindowCheck .failing store ident L W now).2 = store)
    ∧ (∀ (L W : Nat) (now : ℚ), (failOpenResult L W now).allowed = true
        ∧ (failOpenResult L W now).remaining = (L : Int) - 1
        ∧ (failOpenResult L W now).retry_after = 0) :=
  ⟨fun _ _ _ _ => ⟨rfl, rfl⟩, fun _ _ _ _ _ _ => ⟨rfl, rfl⟩,
   fun _ _ _ _ => ⟨rfl, rfl⟩, fun _ _ _ => ⟨rfl, rfl⟩,
   fun _ _ _ _ _ => ⟨rfl, rfl, rfl, rfl⟩, fun _ _ _ => ⟨rfl, rfl, rfl⟩⟩

theorem swc_limit (client : Client) (store : RLStore) (ident : String)
    (L W : Nat) (now : ℚ) :
    (slidingWindowCheck client store ident L W now).1.limit = L ∧
    (slidingWindowCheck client store ident L W now).1.window_seconds = W := by
  cases client with
  | unavailable => exact ⟨rfl, rfl⟩
  | failing => exact ⟨rfl, rfl⟩
  | ok =>
    simp only [slidingWindowCheck]
    split <;> exact ⟨rfl, rfl⟩

theorem swc_frame (client : Client) (store : RLStore) (ident : String)
    (L W : Nat) (now : ℚ) (k : String) (h : k ≠ rlKey ident) :
    (slidingWindowCheck client store ident L W now).2 k = store k := by
  cases client with
  | unavailable => rfl
  | failing => rfl
  | ok =>
    simp only [slidingWindowCheck]
    split
    · simp only [rlSet_rlSet]
      exact rlSet_ne _ _ _ _ h
    · exact rlSet_ne _ _ _ _ h

theorem rl_base_key_ne_global (b g : String) :
    rlKey ("base:" ++ b) ≠ rlKey ("global:" ++ g) := by
  intro hEq
  have hdata := congrArg String.data hEq
  simp only [rlKey, String.data_append, List.append_assoc,
    List.append_cancel_left_eq] at hdata
  simp at hdata

/-- C4: `check_rate_limits` consults the global tier (100 / 60 s) first;
whenever it denies, the returned denial names the global tier and carries
the global result, and the base window's stored state is exactly what it
was before the call. -/
theorem check_rate_limits_global_short_circuit (client : Client)
    (store : RLStore) (base_id api_key : String) (nowG nowB : ℚ)
    (hdeny : (check_global_limit client store api_key nowG).1.allowed = false) :
    (check_rate_limits client store base_id api_key nowG nowB).1.allowed = false
    ∧ (check_rate_limits client store base_id api_key nowG nowB).1.limit_type
        = some "global"
    ∧ (check_rate_limits client store base_id api_key nowG nowB).1.result
        = some (check_global_limit client store api_key nowG).1
    ∧ (check_global_limit client store api_key nowG).1.limit = 100
    ∧ (check_global_limit client store api_key nowG).1.window_seconds = 60
    ∧ (check_rate_limits client store base_id api_key nowG nowB).2
        (rlKey ("base:" ++ base_id)) = store (rlKey ("base:" ++ base_id)) := by
  have hres : check_rate_limits client store base_id api_key nowG nowB =
      ({ allowed := false, limit_type := some "global"
         result := some (check_global_limit client store api_key nowG).1
         global_result := none, base_result := none },
       (check_global_limit client store api_key nowG).2) := by
    unfold check_rate_limits
    simp [hdeny]
  rw [hres]
  refine ⟨rfl, rfl, rfl, (swc_limit _ _ _ _ _ _).1, (swc_limit _ _ _ _ _ _).2, ?_⟩
  exact swc_frame _ _ _ _ _ _ _ (rl_base_key_ne_global base_id _)

/-- C4 witness: a store whose global window for `"key1"` already holds 100
timestamps within the last minute denies the global check at `now = 1`. -/
theorem check_rate_limits_global_short_circuit_witness :
    (check_global_limit .ok globalDenyRLStore "key1" 1).1.allowed = false
    ∧ ((check_rate_limits .ok globalDenyRLStore "B7" "key1" 1 1).1.allowed = false
      ∧ (check_rate_limits .ok globalDenyRLStore "B7" "key1" 1 1).1.limit_type
          = some "global"
      ∧ (check_rate_limits .ok globalDenyRLStore "B7" "key1" 1 1).1.result
          = some (check_global_limit .ok globalDenyRLStore "key1" 1).1
      ∧ (check_global_limit .ok globalDenyRLStore "key1" 1).1.limit = 100
      ∧ (check_global_limit .ok globalDenyRLStore "key1" 1).1.window_seconds = 60
      ∧ (check_rate_limits .ok globalDenyRLStore "B7" "key1" 1 1).2
          (rlKey ("base:" ++ "B7")) = globalDenyRLStore (rlKey ("base:" ++ "B7"))) :=
  ⟨by set_option maxRecDepth 100000 in decide,
   check_rate_limits_global_short_circuit .ok globalDenyRLStore "B7" "key1" 1 1
     (by set_option maxRecDepth 100000 in decide)⟩

theorem lookup_filter_out_none (store : CStore) (k : String) :
    List.lookup k (store.filter (fun p => !(p.1 == k))) = none := by
  rw [List.lookup_eq_none_iff]
  intro p hp
  have := List.of_mem_filter hp
  simp only [Bool.not_eq_true'] at this
  simp [bne_iff_ne, beq_iff_eq] at this ⊢
  exact fun he => this he.symm

theorem cLookup_cSet_same (store : CStore) (k : String) (e : CEntry) :
    cLookup (cSet store k e) k = some e := by
  unfold cLookup cSet
  rw [List.lookup_append, lookup_filter_out_none]
  simp [List.lookup]

/-- C5: on a reachable store, a successful `set(category, V, *args)`
followed by `get(category, *args)` before the entry's TTL has elapsed
returns exactly the stored value. -/
theorem cache_set_get_round_trip (store : CStore) (kt : String) (v : Json)
    (args : List String) (ttl : Option ℚ) (now now2 : ℚ)
    (hlive : now2 < now + (match ttl with
      | some t => t
      | none => ttl_config kt)) :
    (cache_set .ok store kt v args ttl now).1 = true
    ∧ cache_get .ok (cache_set .ok store kt v args ttl now).2 kt args now2
        = some v := by
  refine ⟨rfl, ?_⟩
  unfold cache_get cache_set
  simp only
  rw [cLookup_cSet_same]
  simp only
  rw [if_pos hlive]

/-- C5 witness: a concrete record-list value round-trips through the cache
within its 5-minute default TTL. -/
theorem cache_set_get_round_trip_witness :
    ((1 : ℚ) < 0 + (match (none : Option ℚ) with
      | some t => t
      | none => ttl_config "records"))
    ∧ ((cache_set .ok ([] : CStore) "records" (Json.str "v") ["B1", "T1", "h"] none 0).1 = true
      ∧ cache_get .ok (cache_set .ok ([] : CStore) "records" (Json.str "v")
          ["B1", "T1", "h"] none 0).2 "records" ["B1", "T1", "h"] 1
          = some (Json.str "v")) :=
  ⟨by decide,
   cache_set_get_round_trip ([] : CStore) "records" (Json.str "v")
     ["B1", "T1", "h"] none 0 1 (by decide)⟩

/-- C6: `create_query_hash` is a pure function of the four query
parameters, equal to the first 12 hex characters of the MD5 digest of the
sorted-key canonical JSON encoding, and it separates `max_records = 50`
from `max_records = 100` at otherwise identical parameters (digests
`40e28f6e2c94` vs `bd7b61c85b53`, matching `hashlib`). -/
theorem create_query_hash_fingerprint :
    (∀ m v f s, create_query_hash m v f s =
      String.mk ((bytesToHex (md5Bytes
        ((queryJsonChars m v f s).map Char.toNat))).take 12))
    ∧ create_query_hash 50 (some "Grid") none (some ["Name"]) = "40e28f6e2c94"
    ∧ create_query_hash 100 (some "Grid") none (some ["Name"]) = "bd7b61c85b53"
    ∧ create_query_hash 50 (some "Grid") none (some ["Name"])
        ≠ create_query_hash 100 (some "Grid") none (some ["Name"]) :=
  ⟨fun _ _ _ _ => rfl,
   by set_option maxRecDepth 100000 in decide,
   by set_option maxRecDepth 100000 in decide,
   by set_option maxRecDepth 100000 in decide⟩

/-- C9 (amended): a reachable store probes healthy with latency and store
diagnostics; an absent client reports status `"disconnected"` (not one of
the declared `healthy|degraded|error`) with the fixed error cause, and a
failing probe reports `"error"` with the exception text; every status is
one of `healthy`, `disconnected`, `error`. -/
theorem health_check_statuses (lat : ℚ) (mem : String) (cc : Int) (msg : String) :
    (health_check .ok lat mem cc msg).status = "healthy"
    ∧ (health_check .ok lat mem cc msg).latency_ms = some lat
    ∧ (health_check .ok lat mem cc msg).memory_used = some mem
    ∧ (health_check .ok lat mem cc msg).connected_clients = some cc
    ∧ (health_check .unavailable lat mem cc msg).status = "disconnected"
    ∧ (health_check .unavailable lat mem cc msg).error = some "No Redis connection"
    ∧ (health_check .failing lat mem cc msg).status = "error"
    ∧ (health_check .failing lat mem cc msg).error = some msg
    ∧ (∀ c, (health_check c lat mem cc msg).status
        ∈ (["healthy", "disconnected", "error"] : List String)) := by
  refine ⟨rfl, rfl, rfl, rfl, rfl, rfl, rfl, rfl, ?_⟩
  intro c
  cases c <;> simp [health_check]

/-- C9 counterexample: with no client the reported status is
`"disconnected"`, which is not among the spec's declared statuses
`healthy|degraded|error`. -/
theorem health_check_disconnected_not_declared :
    (health_check .unavailable 0 "" 0 "").status = "disconnected"
    ∧ (health_check .unavailable 0 "" 0 "").status
        ∉ (["healthy", "degraded", "error"] : List String)
    ∧ (health_check .unavailable 0 "" 0 "").error.isSome = true := by
  decide

/-- C10: the module-level `rate_limiter` is constructed at import time from
`cache_manager.client` (then `None`), and a later `connect()` rebinds only
`cache_manager.client`; the limiter's captured handle stays absent, so
every check through it (and through `check_rate_limits`) fails open, while
a client passed explicitly at construction would be kept. -/
theorem module_level_limiter_stays_fail_open (c : Client) (store : RLStore)
    (ident : String) (L W : Nat) (now : ℚ) (b k : String) (nowG nowB : ℚ) :
    importState.rate_limiter_redis = .unavailable
    ∧ (connectCache importState c).rate_limiter_redis = .unavailable
    ∧ (connectCache importState c).cache_manager_client = c
    ∧ (slidingWindowCheck (connectCache importState c).rate_limiter_redis
        store ident L W now).1 = failOpenResult L W now
    ∧ (failOpenResult L W now).allowed = true
    ∧ (failOpenResult L W now).remaining = (L : Int) - 1
    ∧ (check_rate_limits (connectCache importState c).rate_limiter_redis
        store b k nowG nowB).1.allowed = true
    ∧ airtableRateLimiterInit .ok c = .ok
    ∧ airtableRateLimiterInit .failing c = .failing :=
  ⟨rfl, rfl, rfl, rfl, rfl, rfl, rfl, rfl, rfl⟩

theorem joinColon_data (args : List String) :
    (joinColon args).data = charsJoin (args.map String.data) := by
  induction args with
  | nil => rfl
  | cons a t ih =>
    cases t with
    | nil => rfl
    | cons b t2 =>
      simp only [joinColon, String.data_append, ih, List.map_cons, charsJoin]
      simp

theorem sepSplit : ∀ (x y t u : List Char), ':' ∉ x → ':' ∉ y →
    x ++ ':' :: t = y ++ ':' :: u → x = y ∧ t = u := by
  intro x
  induction x with
  | nil =>
    intro y t u _ hy h
    cases y with
    | nil => simpa using h
    | cons d ys =>
      exfalso
      simp only [List.nil_append, List.cons_append, List.cons.injEq] at h
      exact hy (h.1 ▸ List.mem_cons_self _ _)
  | cons c xs ih =>
    intro y t u hx hy h
    cases y with
    | nil =>
      exfalso
      simp only [List.cons_append, List.nil_append, List.cons.injEq] at h
      exact hx (h.1 ▸ List.mem_cons_self _ _)
    | cons d ys =>
      simp only [List.cons_append, List.cons.injEq] at h
      obtain ⟨h1, h2⟩ := h
      obtain ⟨ha, hb⟩ := ih ys t u (fun hm => hx (List.mem_cons_of_mem _ hm))
        (fun hm => hy (List.mem_cons_of_mem _ hm)) h2
      subst h1
      rw [ha]
      exact ⟨rfl, hb⟩

theorem charsJoin_inj (l1 : List (List Char)) : ∀ (l2 : List (List Char)),
    (∀ x ∈ l1, x ≠ [] ∧ ':' ∉ x) → (∀ x ∈ l2, x ≠ [] ∧ ':' ∉ x) →
    charsJoin l1 = charsJoin l2 → l1 = l2 := by
  induction l1 with
  | nil =>
    intro l2 _ h2 h
    cases l2 with
    | nil => rfl
    | cons y ys =>
      exfalso
      cases ys with
      | nil => exact (h2 y (List.mem_cons_self _ _)).1 h.symm
      | cons z zs =>
        have hlen := congrArg List.length h
        simp [charsJoin] at hlen
        omega
  | cons x xs ih =>
    intro l2 h1 h2 h
    cases l2 with
    | nil =>
      exfalso
      cases xs with
      | nil => exact (h1 x (List.mem_cons_self _ _)).1 h
      | cons z zs =>
        have hlen := congrArg List.length h
        simp [charsJoin] at hlen
    | cons y ys =>
      cases xs with
      | nil =>
        cases ys with
        | nil =>
          rw [show charsJoin [x] = x from rfl, show charsJoin [y] = y from rfl] at h
          rw [h]
        | cons z zs =>
          exfalso
          have hx := (h1 x (List.mem_cons_self _ _)).2
          rw [show charsJoin (x :: []) = x from rfl,
             show charsJoin (y :: z :: zs) = y ++ ':' :: charsJoin (z :: zs) from rfl] at h
          rw [h] at hx
          exact hx (List.mem_append.mpr (Or.inr (List.mem_cons_self _ _)))
      | cons w ws =>
        cases ys with
        | nil =>
          exfalso
          have hy := (h2 y (List.mem_cons_self _ _)).2
          rw [show charsJoin (x :: w :: ws) = x ++ ':' :: charsJoin (w :: ws) from rfl,
             show charsJoin (y :: []) = y from rfl] at h
          rw [← h] at hy
          exact hy (List.mem_append.mpr (Or.inr (List.mem_cons_self _ _)))
        | cons z zs =>
          rw [show charsJoin (x :: w :: ws) = x ++ ':' :: charsJoin (w :: ws) from rfl,
             show charsJoin (y :: z :: zs) = y ++ ':' :: charsJoin (z :: zs) from rfl] at h
          obtain ⟨hxy, hj⟩ := sepSplit x y _ _ (h1 x (List.mem_cons_self _ _)).2
            (h2 y (List.mem_cons_self _ _)).2 h
          have hrest := ih (z :: zs) (fun a ha => h1 a (List.mem_cons_of_mem _ ha))
            (fun a ha => h2 a (List.mem_cons_of_mem _ ha)) hj
          rw [hxy, hrest]

/-- C7 (amended): `_make_key` is injective on categories and argument
lists whose components are delimiter-free (no `:`) and whose arguments are
non-empty — two such distinct `(category, args)` pairs never alias. -/
theorem make_key_inj (c1 c2 : String) (a1 a2 : List String)
    (hc1 : ':' ∉ c1.data) (hc2 : ':' ∉ c2.data)
    (h1 : ∀ a ∈ a1, a ≠ "" ∧ ':' ∉ a.data)
    (h2 : ∀ a ∈ a2, a ≠ "" ∧ ':' ∉ a.data)
    (hne : ¬ (c1 = c2 ∧ a1 = a2)) :
    make_key c1 a1 ≠ make_key c2 a2 := by
  intro hEq
  apply hne
  have hdata := congrArg String.data hEq
  simp only [make_key, String.data_append, List.append_assoc,
    List.cons_append, List.nil_append, List.cons.injEq, true_and] at hdata
  obtain ⟨hc, hj⟩ := sepSplit c1.data c2.data _ _ hc1 hc2 hdata
  have hceq : c1 = c2 := String.ext hc
  rw [joinColon_data, joinColon_data] at hj
  have hm1 : ∀ x ∈ a1.map String.data, x ≠ [] ∧ ':' ∉ x := by
    intro x hx
    obtain ⟨a, ha, rfl⟩ := List.mem_map.mp hx
    refine ⟨?_, (h1 a ha).2⟩
    intro hnil
    exact (h1 a ha).1 (String.ext hnil)
  have hm2 : ∀ x ∈ a2.map String.data, x ≠ [] ∧ ':' ∉ x := by
    intro x hx
    obtain ⟨a, ha, rfl⟩ := List.mem_map.mp hx
    refine ⟨?_, (h2 a ha).2⟩
    intro hnil
    exact (h2 a ha).1 (String.ext hnil)
  have hmap := charsJoin_inj (a1.map String.data) (a2.map String.data) hm1 hm2 hj
  have haeq : a1 = a2 :=
    (List.map_injective_iff.mpr fun a b hab => String.ext hab) hmap
  exact ⟨hceq, haeq⟩

/-- C7 counterexample: the distinct pairs `("records", ["B1:T1"])` and
`("records", ["B1", "T1"])` produce the same key
`airtable:records:B1:T1`, so `_make_key` is not injective as claimed. -/
theorem make_key_not_injective :
    (("records", ["B1:T1"]) : String × List String) ≠ ("records", ["B1", "T1"])
    ∧ make_key "records" ["B1:T1"] = make_key "records" ["B1", "T1"] := by
  decide

/-- C7 witness: the amended injectivity applied to the colon-free pairs
`("records", [B1, T1])` and `("record", [B1, T1])`. -/
theorem make_key_inj_witness :
    (':' ∉ ("records" : String).data ∧ ':' ∉ ("record" : String).data
      ∧ (∀ a ∈ (["B1", "T1"] : List String), a ≠ "" ∧ ':' ∉ a.data)
      ∧ ¬ (("records" : String) = "record"
            ∧ (["B1", "T1"] : List String) = ["B1", "T1"]))
    ∧ make_key "records" ["B1", "T1"] ≠ make_key "record" ["B1", "T1"] :=
  ⟨⟨by decide, by decide, by decide, by decide⟩,
   make_key_inj "records" "record" ["B1", "T1"] ["B1", "T1"] (by decide)
     (by decide) (by decide) (by decide) (by decide)⟩

/-- C8: the code of `invalidate_base("B1")` globs `airtable:*:B1:*`, which
matches the record-list and single-record keys of base B1 (2 keys removed,
the other base's keys kept) but not the schema key `airtable:schema:B1`
(no `:` follows the base id there), so the base's schema entry survives —
contradicting the method's own docstring (and the claim) that all cached
data for the base is invalidated. -/
theorem invalidate_base_misses_schema :
    (invalidate_base .ok c8CacheStore "B1" 0).1 = 2
    ∧ (cLookup (invalidate_base .ok c8CacheStore "B1" 0).2
        "airtable:schema:B1").isSome = true
    ∧ (cLookup (invalidate_base .ok c8CacheStore "B1" 0).2
        "airtable:records:B1:T1:h1").isSome = false
    ∧ (cLookup (invalidate_base .ok c8CacheStore "B1" 0).2
        "airtable:record:B1:T1:r1").isSome = false
    ∧ (cLookup (invalidate_base .ok c8CacheStore "B1" 0).2
        "airtable:records:B2:T1:h1").isSome = true
    ∧ (cache_get .ok (invalidate_base .ok c8CacheStore "B1" 0).2
        "schema" ["B1"] 1).isSome = true := by
  decide
